import Mathlib

/-!
# Formalisation of the Data360 client core (`src/main.py`)

Shallow embedding of the paginated data-retrieval and caching layer of the
World Bank Data360 explorer: the pagination loop of `Data360Client.get_data`
(main.py lines 81-132), the failure policy of `Data360Client.search`
(lines 30-62), and the multi-region fan-out `fetch_data_cached`
(lines 1140-1162).

Network I/O is abstracted as a function from the `skip` query parameter to
the decoded response (or a raised exception); everything else is translated
directly from the Python source.
-/

namespace Data360

/-- One decoded JSON body of `GET /data360/data`: `count` models
`result.get("count")` with `none` meaning the field is absent, and `value`
models `result.get("value", [])`. -/
structure DataResponse (α : Type) where
  count : Option Nat
  value : List α

/-- The dict returned by `Data360Client.get_data` with `auto_paginate=True`
(main.py lines 128-132): `count` is `len(all_data)`, `total_count` the
Python variable of that name (still `None` when the loop body never ran),
and `value` is `all_data[:max_records]`. -/
structure FetchResult (α : Type) where
  count : Nat
  total_count : Option Nat
  value : List α

/-- A data endpoint: maps the `skip` query parameter of one windowed request
to the outcome of `session.get` + `raise_for_status` + `json()`; the
`.error` case models any raised exception (transport failure or non-2xx
status).  The remaining query parameters of `get_data` (database id,
indicator, region, period bounds) are fixed for a whole session and are
absorbed into the server function. -/
abbrev Server (ε α : Type) : Type := Nat → Except ε (DataResponse α)

/-- The `while` loop of `get_data` (main.py lines 103-132), with explicit
state: `all_data`, `skip`, `total_count` as in the source.  Alongside the
result we return the request trace: one entry `(skip, len(all_data))` per
issued request, recording the skip offset sent and the number of
observations accumulated at that moment.

Fuel argument: the loop guard is `len(all_data) < max_records` and every
iteration that does not break appends a non-empty batch, so the Python loop
performs at most `max_records` iterations; `fuel = max_records` (see
`get_data`) therefore makes the 0-fuel branch unreachable from the initial
state, and that branch is defined to coincide with the guard-false return. -/
def getDataLoop (server : Server ε α) (max_records : Nat) :
    Nat → List α → Nat → Option Nat → Except ε (FetchResult α) × List (Nat × Nat)
  | 0, all_data, _, total_count =>
      (.ok ⟨all_data.length, total_count, all_data.take max_records⟩, [])
  | fuel + 1, all_data, skip, total_count =>
      if all_data.length < max_records then
        match server skip with
        | .error e => (.error e, [(skip, all_data.length)])
        | .ok result =>
            let tc := total_count.getD (result.count.getD 0)
            let batch_data := result.value
            if batch_data.isEmpty then
              (.ok ⟨all_data.length, some tc, all_data.take max_records⟩,
               [(skip, all_data.length)])
            else
              let all' := all_data ++ batch_data
              if tc ≤ all'.length ∨ max_records ≤ all'.length then
                (.ok ⟨all'.length, some tc, all'.take max_records⟩,
                 [(skip, all_data.length)])
              else
                let next := getDataLoop server max_records fuel all'
                    (skip + batch_data.length) (some tc)
                (next.1, (skip, all_data.length) :: next.2)
      else
        (.ok ⟨all_data.length, total_count, all_data.take max_records⟩, [])

/-- `Data360Client.get_data` with `auto_paginate=True` (main.py 103-132):
run the pagination loop from `all_data = []`, `skip = 0`,
`total_count = None`.  First component: the returned dict (or the
propagated exception); second component: the trace of issued requests. -/
def get_data (server : Server ε α) (max_records : Nat) :
    Except ε (FetchResult α) × List (Nat × Nat) :=
  getDataLoop server max_records max_records [] 0 none

/-- The `count` field of the returned dict (0 when the call raised). -/
def fetchCount (out : Except ε (FetchResult α) × List (Nat × Nat)) : Nat :=
  match out.1 with
  | .ok res => res.count
  | .error _ => 0

/-- The `value` field of the returned dict ([] when the call raised). -/
def fetchValues (out : Except ε (FetchResult α) × List (Nat × Nat)) : List α :=
  match out.1 with
  | .ok res => res.value
  | .error _ => []

/-- The `total_count` field of the returned dict (`none` when the call
raised). -/
def fetchTotal (out : Except ε (FetchResult α) × List (Nat × Nat)) : Option Nat :=
  match out.1 with
  | .ok res => res.total_count
  | .error _ => none

/-- The step relation between consecutive entries of a request trace: the
earlier request received a successful, non-empty page and the next request's
skip offset advanced by exactly the number of items received. -/
def StepRel (server : Server ε α) (a b : Nat × Nat) : Prop :=
  ∃ r, server a.1 = .ok r ∧ r.value ≠ [] ∧ b.1 = a.1 + r.value.length

/-- A well-behaved endpoint serving slices of a fixed master list: the
envelope reports the true total and each request returns the next
`page_size` items starting at `skip`. -/
def honestServer (master : List α) (page_size : Nat) : Server ε α :=
  fun skip => .ok ⟨some master.length, (master.drop skip).take page_size⟩

/-- Endpoint whose first page reports a total of 0 yet carries items
(inconsistent envelope), with further data available at later offsets. -/
def zeroCountServer : Server Unit Nat :=
  fun skip =>
    if skip = 0 then .ok ⟨some 0, [1, 2]⟩ else .ok ⟨some 5, [3]⟩

/-- Endpoint whose first page is short (2 items while the envelope reports
10 available) and whose second page carries 5 items. -/
def shortPageServer : Server Unit Nat :=
  fun skip =>
    if skip = 0 then .ok ⟨some 10, [1, 2]⟩ else .ok ⟨some 10, [3, 4, 5, 6, 7]⟩

/-- Endpoint returning a single page of 5 items (envelope total 5). -/
def bigPageServer : Server Unit Nat :=
  fun _ => .ok ⟨some 5, [1, 2, 3, 4, 5]⟩

/-- Endpoint that serves pages of sizes 100, 100, 37, 0 (the master list has
237 items, window size 100) while the envelope over-reports the total as
300, so the engine cannot stop via the reached-total condition. -/
def paddedCountServer : Server Unit Nat :=
  fun skip => .ok ⟨some 300, ((List.range 237).drop skip).take 100⟩

/-- One iteration of the `for country in countries` loop of
`fetch_data_cached` (main.py 1147-1160): call `get_data` with
`auto_paginate=True, max_records=5000`, extend `all_data` with
`data.get("value", [])` on success, and on any exception leave `all_data`
unchanged (the `except Exception: pass` branch). -/
def fetchBody (servers : ρ → Server ε α) (all_data : List α) (country : ρ) :
    List α :=
  match (get_data (servers country) 5000).1 with
  | .ok data => all_data ++ data.value
  | .error _ => all_data

/-- `fetch_data_cached` (main.py 1141-1162): loop over the requested
countries in order, accumulating `all_data` through `fetchBody`. -/
def fetch_data_cached (countries : List ρ) (servers : ρ → Server ε α) : List α :=
  countries.foldl (fetchBody servers) []

/-- Per-region endpoints for the fan-out example: region 2 always raises a
transport error; regions 1 and 3 serve a two-item page then an empty page. -/
def threeRegionServers : Nat → Server Unit Nat :=
  fun region skip =>
    if region = 2 then .error ()
    else if skip = 0 then .ok ⟨some 2, [10 * region, 10 * region + 1]⟩
    else .ok ⟨some 2, []⟩

/-- The JSON body posted to `/data360/searchv2` (main.py 39-50). -/
structure SearchPayload where
  search : String
  top : Nat
  skip : Nat
  filter : Option String
  orderby : Option String

/-- A decoded search response: `value` and the `@odata.count` field. -/
structure SearchResponse (α : Type) where
  value : List α
  odata_count : Nat

/-- The query normalization of `Data360Client.search` (main.py 36-37):
`if not query or query.strip() == "" or query == "*": query = "GDP"`. -/
def normalizeQuery (query : String) : String :=
  if query = "" ∨ query.trim = "" ∨ query = "*" then "GDP" else query

/-- `Data360Client.search` (main.py 30-62): build the payload with the
normalized query, post it (the transport argument models
`session.post` + `raise_for_status` + `json()`), and on any exception
return the sentinel `{"value": [], "@odata.count": 0}`. -/
def search (transport : SearchPayload → Except ε (SearchResponse α))
    (query : String) (top : Nat) (skip : Nat)
    (filter_by : Option String) (orderby : Option String) : SearchResponse α :=
  match transport ⟨normalizeQuery query, top, skip, filter_by, orderby⟩ with
  | .ok r => r
  | .error _ => ⟨[], 0⟩

/-- Modelled from the spec: the repository caches `fetch_data_cached` with
`@st.cache_data(ttl=3600)` (main.py 1140), but the cache mechanics live in
the streamlit library, not in this repository's source.  Following spec
section 4.5 and the CacheEntry data model: an entry is a payload plus the
timestamp at which it was written. -/
structure CacheEntry (ν : Type) where
  created_at : Nat
  payload : ν

/-- A cache store: key to optional entry (absent = never written). -/
def CacheStore (κ ν : Type) : Type := κ → Option (CacheEntry ν)

/-- Write (or overwrite) one entry of a cache store. -/
def storeWrite [DecidableEq κ] (store : CacheStore κ ν) (key : κ)
    (entry : CacheEntry ν) : CacheStore κ ν :=
  fun k => if k = key then some entry else store k

/-- Modelled from the spec: one cached call.  An entry is valid for reads
only while `now - created_at < ttl`; an expired or absent entry is a miss,
which calls through to the underlying operation and overwrites the entry
with the fresh payload and timestamp.  Returns the payload, the updated
store, and whether an underlying network call was issued. -/
def cachedCall [DecidableEq κ] (ttl : Nat) (underlying : κ → ν)
    (store : CacheStore κ ν) (key : κ) (now : Nat) :
    ν × CacheStore κ ν × Bool :=
  match store key with
  | some entry =>
      if now - entry.created_at < ttl then (entry.payload, store, false)
      else (underlying key, storeWrite store key ⟨now, underlying key⟩, true)
  | none => (underlying key, storeWrite store key ⟨now, underlying key⟩, true)

end Data360

namespace Data360

/-! ## Helper lemmas about the pagination loop -/

/-- Every successful return of the pagination loop carries a `value` list of
length at most `max_records` (it is `all_data[:max_records]`). -/
theorem loop_value_length_le (server : Server ε α) (max_records : Nat) :
    ∀ (fuel : Nat) (all_data : List α) (skip : Nat) (tc : Option Nat)
      (res : FetchResult α),
      (getDataLoop server max_records fuel all_data skip tc).1 = .ok res →
      res.value.length ≤ max_records := by
  intro fuel
  induction fuel with
  | zero =>
    intro all_data skip tc res h
    simp only [getDataLoop] at h
    cases h
    simp [List.length_take]
  | succ fuel ih =>
    intro all_data skip tc res h
    simp only [getDataLoop] at h
    by_cases hg : all_data.length < max_records
    · rw [if_pos hg] at h
      cases hsrv : server skip with
      | error e => rw [hsrv] at h; cases h
      | ok result =>
        rw [hsrv] at h
        simp only at h
        by_cases hb : result.value.isEmpty
        · rw [if_pos hb] at h
          cases h
          simp [List.length_take]
        · rw [if_neg hb] at h
          by_cases hbr : tc.getD (result.count.getD 0) ≤ (all_data ++ result.value).length ∨
              max_records ≤ (all_data ++ result.value).length
          · rw [if_pos hbr] at h
            cases h
            simp [List.length_take]
          · rw [if_neg hbr] at h
            exact ih _ _ _ res h
    · rw [if_neg hg] at h
      cases h
      simp [List.length_take]

/-- Trace invariant: provided the loop is entered with `skip` equal to the
number of accumulated observations (as `get_data` does), every issued
request has its skip offset equal to the number of observations accumulated
at that moment, and that number is strictly below `max_records` (the loop
guard). -/
theorem loop_trace_inv (server : Server ε α) (max_records : Nat) :
    ∀ (fuel : Nat) (all_data : List α) (skip : Nat) (tc : Option Nat),
      skip = all_data.length →
      ∀ p ∈ (getDataLoop server max_records fuel all_data skip tc).2,
        p.1 = p.2 ∧ p.2 < max_records := by
  intro fuel
  induction fuel with
  | zero =>
    intro all_data skip tc hs p hp
    simp only [getDataLoop] at hp
    simp at hp
  | succ fuel ih =>
    intro all_data skip tc hs p hp
    simp only [getDataLoop] at hp
    by_cases hg : all_data.length < max_records
    · rw [if_pos hg] at hp
      cases hsrv : server skip with
      | error e =>
        rw [hsrv] at hp
        simp only [List.mem_singleton] at hp
        subst hp
        exact ⟨hs, hg⟩
      | ok result =>
        rw [hsrv] at hp
        simp only at hp
        by_cases hb : result.value.isEmpty
        · rw [if_pos hb] at hp
          simp only [List.mem_singleton] at hp
          subst hp
          exact ⟨hs, hg⟩
        · rw [if_neg hb] at hp
          by_cases hbr : tc.getD (result.count.getD 0) ≤ (all_data ++ result.value).length ∨
              max_records ≤ (all_data ++ result.value).length
          · rw [if_pos hbr] at hp
            simp only [List.mem_singleton] at hp
            subst hp
            exact ⟨hs, hg⟩
          · rw [if_neg hbr] at hp
            simp only [List.mem_cons] at hp
            rcases hp with rfl | hp
            · exact ⟨hs, hg⟩
            · exact ih (all_data ++ result.value) (skip + result.value.length) _
                (by rw [hs, List.length_append]) p hp
    · rw [if_neg hg] at hp
      simp at hp

/-- The first entry of the loop's request trace (when a request is issued at
all) records the state the loop was entered with. -/
theorem loop_trace_head (server : Server ε α) (max_records : Nat)
    (fuel : Nat) (all_data : List α) (skip : Nat) (tc : Option Nat) :
    ∀ x ∈ (getDataLoop server max_records fuel all_data skip tc).2.head?,
      x = (skip, all_data.length) := by
  intro x hx
  cases fuel with
  | zero => simp [getDataLoop] at hx
  | succ fuel =>
    simp only [getDataLoop] at hx
    by_cases hg : all_data.length < max_records
    · rw [if_pos hg] at hx
      cases hsrv : server skip with
      | error e =>
        rw [hsrv] at hx
        simp at hx
        exact hx.symm
      | ok result =>
        rw [hsrv] at hx
        simp only at hx
        by_cases hb : result.value.isEmpty
        · rw [if_pos hb] at hx
          simp at hx
          exact hx.symm
        · rw [if_neg hb] at hx
          by_cases hbr : tc.getD (result.count.getD 0) ≤ (all_data ++ result.value).length ∨
              max_records ≤ (all_data ++ result.value).length
          · rw [if_pos hbr] at hx
            simp at hx
            exact hx.symm
          · rw [if_neg hbr] at hx
            simp at hx
            exact hx.symm
    · rw [if_neg hg] at hx
      simp at hx

/-- Consecutive requests in the trace are linked by `StepRel`: each request
that is followed by another one received a successful non-empty page, and
the next skip offset advanced by exactly the number of items received. -/
theorem loop_trace_chain (server : Server ε α) (max_records : Nat) :
    ∀ (fuel : Nat) (all_data : List α) (skip : Nat) (tc : Option Nat),
      List.Chain' (StepRel server)
        (getDataLoop server max_records fuel all_data skip tc).2 := by
  intro fuel
  induction fuel with
  | zero =>
    intro all_data skip tc
    simp [getDataLoop]
  | succ fuel ih =>
    intro all_data skip tc
    simp only [getDataLoop]
    by_cases hg : all_data.length < max_records
    · rw [if_pos hg]
      cases hsrv : server skip with
      | error e => simp
      | ok result =>
        simp only
        by_cases hb : result.value.isEmpty
        · rw [if_pos hb]; simp
        · rw [if_neg hb]
          by_cases hbr : tc.getD (result.count.getD 0) ≤ (all_data ++ result.value).length ∨
              max_records ≤ (all_data ++ result.value).length
          · rw [if_pos hbr]; simp
          · rw [if_neg hbr]
            refine List.chain'_cons'.mpr ⟨?_, ih _ _ _⟩
            intro y hy
            have hy' := loop_trace_head server max_records fuel
              (all_data ++ result.value) (skip + result.value.length) (some _) y hy
            subst hy'
            exact ⟨result, hsrv, by simpa using hb, rfl⟩
    · rw [if_neg hg]
      simp

/-- Once the Python variable `total_count` holds a value, no later iteration
modifies it: every successful return reports exactly that value. -/
theorem loop_total_persist (server : Server ε α) (max_records : Nat) :
    ∀ (fuel : Nat) (all_data : List α) (skip t : Nat) (res : FetchResult α),
      (getDataLoop server max_records fuel all_data skip (some t)).1 = .ok res →
      res.total_count = some t := by
  intro fuel
  induction fuel with
  | zero =>
    intro all_data skip t res h
    simp only [getDataLoop] at h
    cases h
    rfl
  | succ fuel ih =>
    intro all_data skip t res h
    simp only [getDataLoop] at h
    by_cases hg : all_data.length < max_records
    · rw [if_pos hg] at h
      cases hsrv : server skip with
      | error e => rw [hsrv] at h; cases h
      | ok result =>
        rw [hsrv] at h
        simp only [Option.getD_some] at h
        by_cases hb : result.value.isEmpty
        · rw [if_pos hb] at h
          cases h
          rfl
        · rw [if_neg hb] at h
          by_cases hbr : t ≤ (all_data ++ result.value).length ∨
              max_records ≤ (all_data ++ result.value).length
          · rw [if_pos hbr] at h
            cases h
            rfl
          · rw [if_neg hbr] at h
            exact ih _ _ t res h
    · rw [if_neg hg] at h
      cases h
      rfl

/-- Against `honestServer master p` (true total in the envelope, positive
window size `p`), the loop run with enough fuel succeeds and accumulates at
least `min master.length max_records` observations. -/
theorem honest_loop_count (master : List α) (p max_records : Nat) (hp : 0 < p) :
    ∀ (fuel : Nat) (all_data : List α) (tc : Option Nat),
      tc = none ∨ tc = some master.length →
      max_records ≤ all_data.length + fuel →
      ∃ res,
        (getDataLoop (honestServer (ε := ε) master p) max_records fuel all_data
            all_data.length tc).1 = .ok res ∧
        min master.length max_records ≤ res.count := by
  intro fuel
  induction fuel with
  | zero =>
    intro all_data tc htc hfuel
    refine ⟨_, rfl, ?_⟩
    simp only [getDataLoop]
    omega
  | succ fuel ih =>
    intro all_data tc htc hfuel
    simp only [getDataLoop, honestServer]
    by_cases hg : all_data.length < max_records
    · rw [if_pos hg]
      simp only [Option.getD_some]
      have htc' : tc.getD master.length = master.length := by
        rcases htc with rfl | rfl <;> rfl
      rw [htc']
      have hbl : ((master.drop all_data.length).take p).length =
          min p (master.length - all_data.length) := by
        simp [List.length_take, List.length_drop]
      by_cases hb : ((master.drop all_data.length).take p).isEmpty
      · rw [if_pos hb]
        refine ⟨_, rfl, ?_⟩
        have h0 : ((master.drop all_data.length).take p).length = 0 := by
          rcases hxs : (master.drop all_data.length).take p with _ | ⟨a, l⟩
          · rfl
          · rw [hxs] at hb; simp at hb
        rw [hbl] at h0
        simp only
        omega
      · rw [if_neg hb]
        have h1 : 0 < ((master.drop all_data.length).take p).length := by
          rcases hxs : (master.drop all_data.length).take p with _ | ⟨a, l⟩
          · rw [hxs] at hb; simp at hb
          · simp [hxs]
        have hlen : (all_data ++ (master.drop all_data.length).take p).length =
            all_data.length + ((master.drop all_data.length).take p).length :=
          List.length_append _ _
        by_cases hbr : master.length ≤
              (all_data ++ (master.drop all_data.length).take p).length ∨
            max_records ≤ (all_data ++ (master.drop all_data.length).take p).length
        · rw [if_pos hbr]
          refine ⟨_, rfl, ?_⟩
          simp only
          omega
        · rw [if_neg hbr]
          have hskip : all_data.length + ((master.drop all_data.length).take p).length =
              (all_data ++ (master.drop all_data.length).take p).length := hlen.symm
          rw [hskip]
          exact ih (all_data ++ (master.drop all_data.length).take p)
            (some master.length) (Or.inr rfl) (by omega)
    · rw [if_neg hg]
      refine ⟨_, rfl, ?_⟩
      simp only
      omega

end Data360

namespace Data360

/-! Claim theorems.  Each claim of the specification is settled against the
embedding above; counterexample theorems exhibit concrete endpoint
behaviours on which the claim, as stated, fails. -/

/-- Claim C1, counterexample.  Against `zeroCountServer` — whose first page
reports `count = 0` yet carries the two items `[1, 2]`, with more data
available at later offsets — `get_data` with budget 10 issues exactly one
request (trace `[(0, 0)]`) and returns only the first page.  It therefore
stops merely because `len(accumulated) >= 0`, the reported total: it does
not continue issuing requests until an empty page or the budget, refuting
the claim. -/
theorem claimC1_counterexample :
    (get_data zeroCountServer 10).2 = [(0, 0)] ∧
    fetchValues (get_data zeroCountServer 10) = [1, 2] ∧
    fetchCount (get_data zeroCountServer 10) = 2 :=
  ⟨rfl, rfl, rfl⟩

/-- Claim C1, amended.  When the first successful page's envelope reports a
total of 0 (or the `count` field is absent) and `max_records > 0`, the
engine accumulates that first page and terminates immediately after the
first request — whether or not the page contains items — because
`len(accumulated) >= total_count` holds with `total_count = 0`.  The result
carries exactly the first page's items (truncated to the budget) and
`total_count = 0`. -/
theorem claimC1 (server : Server Unit Nat) (max_records : Nat)
    (r : DataResponse Nat) (hmax : 0 < max_records) (hsrv : server 0 = .ok r)
    (hzero : r.count.getD 0 = 0) :
    (get_data server max_records).1 =
      .ok ⟨r.value.length, some 0, r.value.take max_records⟩ ∧
    (get_data server max_records).2 = [(0, 0)] := by
  obtain ⟨m, rfl⟩ : ∃ m, max_records = m + 1 := ⟨max_records - 1, by omega⟩
  unfold get_data
  simp only [getDataLoop, List.length_nil]
  rw [if_pos (Nat.succ_pos m), hsrv]
  simp only [Option.getD_none, hzero]
  by_cases hb : r.value.isEmpty
  · rw [if_pos hb]
    have hv : r.value = [] := by
      rcases hxs : r.value with _ | ⟨a, l⟩
      · rfl
      · rw [hxs] at hb; simp at hb
    simp [hv]
  · rw [if_neg hb]
    rw [if_pos (Or.inl (Nat.zero_le _))]
    simp

/-- Witness for C1 at `zeroCountServer` with budget 10. -/
theorem claimC1_witness :
    (get_data zeroCountServer 10).1 = .ok ⟨[1, 2].length, some 0, [1, 2].take 10⟩ ∧
    (get_data zeroCountServer 10).2 = [(0, 0)] :=
  claimC1 zeroCountServer 10 ⟨some 0, [1, 2]⟩ (by decide) rfl rfl

/-- Claim C2, counterexample.  Against `shortPageServer` with
`max_records = 3`: the first page returns only 2 items although the
envelope reports 10 available (a short page), yet the engine issues a
second request (trace `[(0, 0), (2, 2)]`), refuting "terminates by the k-th
request"; and the `count` returned to the caller is 7, exceeding
`max_records = 3`, refuting "the count returned never exceeds
max_records". -/
theorem claimC2_counterexample :
    (get_data shortPageServer 3).2 = [(0, 0), (2, 2)] ∧
    fetchCount (get_data shortPageServer 3) = 7 ∧
    3 < fetchCount (get_data shortPageServer 3) :=
  ⟨rfl, rfl, by decide⟩

/-- Claim C2, amended.  For every sequence of pages: every request that is
followed by a further request received a successful, non-empty page
(`List.Chain'` over the trace) — equivalently, if the k-th page returns an
empty list the fetch terminates at the k-th request; and the length of the
observation list returned to the caller (the `value` field, which the code
truncates with `all_data[:max_records]`) never exceeds `max_records`.
A short-but-non-empty page does not terminate the fetch, and the returned
`count` field may exceed `max_records`, as the counterexample shows. -/
theorem claimC2 (server : Server Unit Nat) (max_records : Nat) :
    List.Chain' (StepRel server) (get_data server max_records).2 ∧
    (fetchValues (get_data server max_records)).length ≤ max_records := by
  constructor
  · exact loop_trace_chain server max_records max_records [] 0 none
  · unfold fetchValues
    cases h : (get_data server max_records).1 with
    | ok res =>
      simp only
      exact loop_value_length_le server max_records max_records [] 0 none res h
    | error e => simp

/-- Claim C3, counterexample.  Against `bigPageServer` with
`max_records = 1`: the single 5-item page is appended whole, so the
accumulated list reaches length 5 (reported as the final `count`) although
the budget is 1 — `len(accumulated) <= max_records` does not hold at every
step.  Only the returned `value` is truncated (to `[1]`). -/
theorem claimC3_counterexample :
    fetchCount (get_data bigPageServer 1) = 5 ∧
    fetchValues (get_data bigPageServer 1) = [1] ∧
    1 < fetchCount (get_data bigPageServer 1) :=
  ⟨rfl, rfl, by decide⟩

/-- Claim C3, amended.  The invariant that actually holds during a
pagination session: whenever a request is issued, the number of accumulated
observations at that moment (the second trace component, which also equals
the skip offset sent) is strictly below `max_records` — the loop guard; and
the observation list finally returned is truncated to at most
`max_records`.  Between instants, after appending the final page, the
accumulated list may exceed the budget (see the counterexample). -/
theorem claimC3 (server : Server Unit Nat) (max_records : Nat) :
    (∀ p ∈ (get_data server max_records).2, p.1 = p.2 ∧ p.2 < max_records) ∧
    (fetchValues (get_data server max_records)).length ≤ max_records := by
  constructor
  · exact loop_trace_inv server max_records max_records [] 0 none rfl
  · unfold fetchValues
    cases h : (get_data server max_records).1 with
    | ok res =>
      simp only
      exact loop_value_length_le server max_records max_records [] 0 none res h
    | error e => simp

/-- Witness for C3 at `bigPageServer` with budget 1: the single issued
request has skip 0 = 0 accumulated observations, below the budget. -/
theorem claimC3_witness :
    ((0, 0) : Nat × Nat).1 = ((0, 0) : Nat × Nat).2 ∧ ((0, 0) : Nat × Nat).2 < 1 :=
  (claimC3 bigPageServer 1).1 (0, 0) (by decide)

set_option maxRecDepth 8000 in
/-- Claim C4, counterexample.  Against an endpoint that returns exactly the
page sizes `[100, 100, 37, 0]` (`honestServer` over a 237-item master list
with window 100) whose envelope reports the true total 237, the engine
issues only **3** requests, at skips `[0, 100, 200]`: after the short third
page `len(accumulated) = 237 >= total_count` ends the session, and the
empty fourth page is never requested — refuting "issues exactly 4 requests
with skip offsets [0, 100, 200, 237] ... terminating on the empty 4th
page". -/
theorem claimC4_counterexample :
    (get_data (honestServer (ε := Unit) (List.range 237) 100) 1000).2.map Prod.fst =
      [0, 100, 200] ∧
    fetchCount (get_data (honestServer (ε := Unit) (List.range 237) 100) 1000) = 237 :=
  ⟨rfl, rfl⟩

set_option maxRecDepth 8000 in
/-- Claim C4, amended.  Skip does advance by the number of observations
received: (i) concretely, when the envelope over-reports the total (here
300 > 237, `paddedCountServer`), so that the reached-total condition cannot
fire, the engine issues exactly 4 requests at skips `[0, 100, 200, 237]`,
accumulates 237 observations and terminates on the empty 4th page; (ii) in
general, the first request is issued at skip 0 with 0 accumulated, each
request's skip offset equals the number of observations received so far,
and consecutive requests satisfy `StepRel`: the next skip is the previous
one plus the number of items the previous (non-empty) page returned.  With
an envelope reporting the total exactly (the counterexample) only 3
requests are issued. -/
theorem claimC4 :
    ((get_data paddedCountServer 1000).2.map Prod.fst = [0, 100, 200, 237] ∧
      fetchCount (get_data paddedCountServer 1000) = 237 ∧
      fetchValues (get_data paddedCountServer 1000) = List.range 237) ∧
    ∀ (server : Server Unit Nat) (max_records : Nat),
      (∀ x ∈ (get_data server max_records).2.head?, x = (0, 0)) ∧
      (∀ p ∈ (get_data server max_records).2, p.1 = p.2) ∧
      List.Chain' (StepRel server) (get_data server max_records).2 := by
  refine ⟨⟨rfl, rfl, rfl⟩, ?_⟩
  intro server max_records
  refine ⟨?_, ?_, loop_trace_chain server max_records max_records [] 0 none⟩
  · exact loop_trace_head server max_records max_records [] 0 none
  · intro p hp
    exact (loop_trace_inv server max_records max_records [] 0 none rfl p hp).1

/-- Witness for C4: against `shortPageServer` with budget 3 the second
request, at skip 2, was issued with 2 observations accumulated. -/
theorem claimC4_witness :
    ((2, 2) : Nat × Nat).1 = ((2, 2) : Nat × Nat).2 :=
  (claimC4.2 shortPageServer 3).2.1 (2, 2) (by decide)

/-- Claim C5.  For every `max_records = N`: (i) for any endpoint whatsoever
the returned observation list has length at most `N` (the code truncates
with `all_data[:max_records]`); (ii) when the total number of available
records is at least `N` (an honest endpoint over a master list of length
`>= N`, any positive window size), the session ends in the budget-terminal
state: the returned `count` is at least `N`.  Both terminal states of the
loop return the same shape (spec section 4.3), so the truncated outcome is
observable exactly as `count >= max_records`; this is the reading of
"marked truncated" proved here. -/
theorem claimC5 (server : Server Unit Nat) (N : Nat) :
    (fetchValues (get_data server N)).length ≤ N ∧
    ∀ (master : List Nat) (p : Nat), 0 < p → N ≤ master.length →
      N ≤ fetchCount (get_data (honestServer (ε := Unit) master p) N) := by
  constructor
  · unfold fetchValues
    cases h : (get_data server N).1 with
    | ok res =>
      simp only
      exact loop_value_length_le server N N [] 0 none res h
    | error e => simp
  · intro master p hp hN
    obtain ⟨res, hres, hmin⟩ :=
      honest_loop_count (ε := Unit) master p N hp N [] none (Or.inl rfl) (by simp)
    simp only [List.length_nil] at hres
    unfold fetchCount get_data
    rw [hres]
    show N ≤ res.count
    omega

/-- Witness for C5: an honest 3-record endpoint with window 2 and budget 2
returns a count of at least 2. -/
theorem claimC5_witness :
    2 ≤ fetchCount (get_data (honestServer (ε := Unit) ([5, 6, 7] : List Nat) 2) 2) :=
  (claimC5 (fun _ => .error ()) 2).2 [5, 6, 7] 2 (by decide) (by decide)

/-- Claim C6.  `get_data` with `max_records = 0` never enters the loop
(`while len(all_data) < 0` is immediately false): for every endpoint it
issues zero requests (empty trace) and returns
`{"count": 0, "total_count": None, "value": []}`. -/
theorem claimC6 (server : Server Unit Nat) :
    get_data server 0 = (.ok ⟨0, none, []⟩, []) := rfl

/-- Folding an append-only step over a list concatenates the per-element
contributions in order. -/
theorem foldl_extend (f : List α → ρ → List α) (g : ρ → List α)
    (hf : ∀ acc c, f acc c = acc ++ g c) :
    ∀ (l : List ρ) (init : List α),
      l.foldl f init = init ++ (l.map g).flatten := by
  intro l
  induction l with
  | nil => intro init; simp
  | cons c cs ih =>
    intro init
    rw [List.foldl_cons, hf, ih]
    simp

/-- Claim C7.  `fetch_data_cached` never raises: it is a total function
whose result is exactly the concatenation, in input order, of the `value`
lists of the regions whose `get_data` call succeeded (a failed region
contributes `fetchValues = []`, i.e. is skipped without aborting the
rest).  Concretely, with three regions of which region 2 raises a transport
error, the merged result contains exactly regions 1 and 3's observations in
order. -/
theorem claimC7 (countries : List Nat) (servers : Nat → Server Unit Nat) :
    fetch_data_cached countries servers =
      (countries.map (fun c => fetchValues (get_data (servers c) 5000))).flatten ∧
    fetch_data_cached [1, 2, 3] threeRegionServers = [10, 11, 30, 31] := by
  constructor
  · have h := foldl_extend (fetchBody servers)
      (fun c => fetchValues (get_data (servers c) 5000))
      (by
        intro acc c
        unfold fetchBody fetchValues
        cases h : (get_data (servers c) 5000).1 <;> simp [h])
      countries []
    rw [List.nil_append] at h
    exact h
  · rfl

/-- Claim C8.  `search` never throws: whenever the underlying transport
fails (any raised exception — connection error or non-2xx status via
`raise_for_status`), `search` returns the empty-result sentinel
`{"value": [], "@odata.count": 0}` instead of propagating the error. -/
theorem claimC8 (transport : SearchPayload → Except Unit (SearchResponse Nat))
    (query : String) (top skip : Nat) (filter_by orderby : Option String)
    (e : Unit)
    (hfail : transport ⟨normalizeQuery query, top, skip, filter_by, orderby⟩ = .error e) :
    search transport query top skip filter_by orderby = ⟨[], 0⟩ := by
  unfold search
  rw [hfail]

/-- Witness for C8 at an always-failing transport. -/
theorem claimC8_witness :
    search (fun _ => (Except.error () : Except Unit (SearchResponse Nat)))
      "population" 100 0 none none = ⟨[], 0⟩ :=
  claimC8 (fun _ => Except.error ()) "population" 100 0 none none () rfl

/-- Writing a cache entry makes it readable at its key. -/
theorem storeWrite_self [DecidableEq κ] (store : CacheStore κ ν) (key : κ)
    (entry : CacheEntry ν) : storeWrite store key entry key = some entry := by
  simp [storeWrite]

/-- Claim C9.  Cache freshness with the fixed TTL of 3600 seconds the
repository passes to its cache decorator: starting from a store with no
entry for the key, the first call issues an underlying network call; a
second call with the same key within the TTL window issues no further
network call (exactly one call in total) and returns the cached payload;
the same call repeated once the TTL has expired issues a second network
call and overwrites the stale entry with the fresh timestamp. -/
theorem claimC9 (underlying : Nat → Nat) (store : CacheStore Nat Nat)
    (key t0 t1 t2 : Nat) (habsent : store key = none) (_h01 : t0 ≤ t1)
    (hfresh : t1 - t0 < 3600) (hstale : 3600 ≤ t2 - t0) :
    (cachedCall 3600 underlying store key t0).2.2 = true ∧
    (cachedCall 3600 underlying (cachedCall 3600 underlying store key t0).2.1 key t1).2.2 = false ∧
    (cachedCall 3600 underlying (cachedCall 3600 underlying store key t0).2.1 key t1).1 =
      underlying key ∧
    (cachedCall 3600 underlying (cachedCall 3600 underlying store key t0).2.1 key t2).2.2 = true ∧
    (cachedCall 3600 underlying (cachedCall 3600 underlying store key t0).2.1 key t2).2.1 key =
      some ⟨t2, underlying key⟩ := by
  have h0 : cachedCall 3600 underlying store key t0 =
      (underlying key, storeWrite store key ⟨t0, underlying key⟩, true) := by
    unfold cachedCall
    rw [habsent]
  have h1 : cachedCall 3600 underlying
      (storeWrite store key ⟨t0, underlying key⟩) key t1 =
      (underlying key, storeWrite store key ⟨t0, underlying key⟩, false) := by
    unfold cachedCall
    rw [storeWrite_self]
    simp only
    rw [if_pos (show t1 - t0 < 3600 by omega)]
  have h2 : cachedCall 3600 underlying
      (storeWrite store key ⟨t0, underlying key⟩) key t2 =
      (underlying key,
       storeWrite (storeWrite store key ⟨t0, underlying key⟩) key ⟨t2, underlying key⟩,
       true) := by
    unfold cachedCall
    rw [storeWrite_self]
    simp only
    rw [if_neg (show ¬ t2 - t0 < 3600 by omega)]
  refine ⟨by rw [h0], ?_, ?_, ?_, ?_⟩
  · rw [h0]
    simp only
    rw [h1]
  · rw [h0]
    simp only
    rw [h1]
  · rw [h0]
    simp only
    rw [h2]
  · rw [h0]
    simp only
    rw [h2]
    simp only
    exact storeWrite_self _ _ _

/-- Witness for C9 with writes at time 0, a fresh read at time 10, and a
stale read at time 3600. -/
theorem claimC9_witness :
    (cachedCall 3600 (fun n => n + 1) (fun _ => (none : Option (CacheEntry Nat))) 0 0).2.2 = true ∧
    (cachedCall 3600 (fun n => n + 1)
      (cachedCall 3600 (fun n => n + 1) (fun _ => none) 0 0).2.1 0 10).2.2 = false ∧
    (cachedCall 3600 (fun n => n + 1)
      (cachedCall 3600 (fun n => n + 1) (fun _ => none) 0 0).2.1 0 10).1 = 1 ∧
    (cachedCall 3600 (fun n => n + 1)
      (cachedCall 3600 (fun n => n + 1) (fun _ => none) 0 0).2.1 0 3600).2.2 = true ∧
    (cachedCall 3600 (fun n => n + 1)
      (cachedCall 3600 (fun n => n + 1) (fun _ => none) 0 0).2.1 0 3600).2.1 0 =
      some ⟨3600, 1⟩ :=
  claimC9 (fun n => n + 1) (fun _ => none) 0 0 10 3600 rfl (by decide) (by decide) (by decide)

/-- Claim C10.  Provenance of `total_count`: with `max_records = 0` no
request is issued and the returned `total_count` is `None`; with a positive
budget, any successfully returned dict reports `total_count` equal to the
`count` field of the **first** response envelope, with 0 substituted when
that field is absent (`result.get("count", 0)`), and no later page's
envelope ever updates it. -/
theorem claimC10 (server : Server Unit Nat) :
    (fetchTotal (get_data server 0) = none ∧ (get_data server 0).2 = []) ∧
    ∀ (max_records : Nat) (r : DataResponse Nat), 0 < max_records →
      server 0 = .ok r →
      ∀ res, (get_data server max_records).1 = .ok res →
        res.total_count = some (r.count.getD 0) := by
  refine ⟨⟨rfl, rfl⟩, ?_⟩
  intro max_records r hmax hsrv res hres
  obtain ⟨m, rfl⟩ : ∃ m, max_records = m + 1 := ⟨max_records - 1, by omega⟩
  unfold get_data at hres
  simp only [getDataLoop, List.length_nil] at hres
  rw [if_pos (Nat.succ_pos m), hsrv] at hres
  simp only [Option.getD_none] at hres
  by_cases hb : r.value.isEmpty
  · rw [if_pos hb] at hres
    cases hres
    rfl
  · rw [if_neg hb] at hres
    by_cases hbr : r.count.getD 0 ≤ (([] : List Nat) ++ r.value).length ∨
        m + 1 ≤ (([] : List Nat) ++ r.value).length
    · rw [if_pos hbr] at hres
      cases hres
      rfl
    · rw [if_neg hbr] at hres
      exact loop_total_persist server (m + 1) m ([] ++ r.value)
        (0 + r.value.length) (r.count.getD 0) res hres

/-- Witness for C10 at an endpoint whose envelope reports a total of 7. -/
theorem claimC10_witness :
    (⟨1, some 7, [4]⟩ : FetchResult Nat).total_count = some 7 :=
  (claimC10 (fun _ => .ok ⟨some 7, [4]⟩)).2 1 ⟨some 7, [4]⟩ (by decide) rfl
    ⟨1, some 7, [4]⟩ rfl

end Data360
